import Mathlib

/-!
Shallow embedding of the crawl engine in `follower_analyzer/twitter_api.py`
(class `Progress`, functions `save_followers` and `search`), together with the
checkpoint JSON round trip driven by `Progress.__init__` / `Progress.save`.

Machine conventions: epoch times and tweet ids are modelled as `Int`
(`time.time()` is truncated with `int(...)` only inside sleep-duration
arithmetic, which the integer model reproduces exactly); follower ids are
strings (the source requests `stringify_ids=True`); Python dicts that the
code serialises or mutates are modelled as insertion-ordered association
lists, matching Python's dict semantics for the operations the code uses.
-/

/-- `twitter.ratelimit.EndpointRateLimit`, a namedtuple `(limit, remaining, reset)`.
JSON-serialising it yields the 3-element list `[limit, remaining, reset]`,
which `Progress.__init__` splats back into the namedtuple. -/
structure EndpointRateLimit where
  limit : Int
  remaining : Int
  reset : Int
deriving Repr, DecidableEq

/-- The checkpointed state held by `Progress` (twitter_api.py, lines 33-50):
pagination cursor, pending follower-id queue, per-hashtag watermark map, and
the three per-endpoint rate-limit windows. -/
structure Progress where
  cursor : Int
  follower_ids : List String
  hashtag_max_ids : List (String × Int)
  get_follower_ids_rate_limits : EndpointRateLimit
  users_lookup_rate_limits : EndpointRateLimit
  search_rate_limits : EndpointRateLimit
deriving Repr, DecidableEq

/-- The JSON values that appear in the progress file: ints, the list of
follower-id strings, the hashtag watermark object, and a serialised
rate-limit namedtuple (a 3-element int list). -/
inductive JVal where
  | jint (n : Int)
  | jstrList (xs : List String)
  | jmap (m : List (String × Int))
  | jtriple (a b c : Int)
deriving Repr, DecidableEq

/-- Lookup in a JSON object (Python `dict.get` on the decoded document). -/
def dget : List (String × JVal) → String → Option JVal
  | [], _ => none
  | (k', v) :: rest, k => if k' = k then some v else dget rest k

/-- `Progress.save` (twitter_api.py, lines 52-60): the JSON document written,
key for key. Note the watermark map is written under key `hashtag_max_ids`. -/
def saveProgress (p : Progress) : List (String × JVal) :=
  [("cursor", .jint p.cursor),
   ("follower_ids", .jstrList p.follower_ids),
   ("hashtag_max_ids", .jmap p.hashtag_max_ids),
   ("get_follower_ids_rate_limits",
      .jtriple p.get_follower_ids_rate_limits.limit p.get_follower_ids_rate_limits.remaining
        p.get_follower_ids_rate_limits.reset),
   ("users_lookup_rate_limits",
      .jtriple p.users_lookup_rate_limits.limit p.users_lookup_rate_limits.remaining
        p.users_lookup_rate_limits.reset),
   ("search_rate_limits",
      .jtriple p.search_rate_limits.limit p.search_rate_limits.remaining
        p.search_rate_limits.reset)]

/-- `Progress.__init__` (twitter_api.py, lines 33-50) applied to a decoded
progress document: each field is read with `dict.get` and its default.
Note the watermark map is read from key `max_ids` (line 43), not
`hashtag_max_ids`. -/
def loadProgress (d : List (String × JVal)) : Progress :=
  { cursor := match dget d "cursor" with | some (.jint n) => n | _ => -1
    follower_ids := match dget d "follower_ids" with | some (.jstrList xs) => xs | _ => []
    hashtag_max_ids := match dget d "max_ids" with | some (.jmap m) => m | _ => []
    get_follower_ids_rate_limits :=
      match dget d "get_follower_ids_rate_limits" with
      | some (.jtriple a b c) => ⟨a, b, c⟩ | _ => ⟨15, 15, 0⟩
    users_lookup_rate_limits :=
      match dget d "users_lookup_rate_limits" with
      | some (.jtriple a b c) => ⟨a, b, c⟩ | _ => ⟨900, 150, 0⟩
    search_rate_limits :=
      match dget d "search_rate_limits" with
      | some (.jtriple a b c) => ⟨a, b, c⟩ | _ => ⟨180, 180, 0⟩ }

/-- The initial rate-limited flag for the follower-ids endpoint
(twitter_api.py, line 66): `now > progress.get_follower_ids_rate_limits.reset`. -/
def initGetFollowerIdsLimited (now : Int) (p : Progress) : Bool :=
  decide (now > p.get_follower_ids_rate_limits.reset)

/-- The initial rate-limited flag for the users-lookup endpoint
(twitter_api.py, line 67): `now > progress.users_lookup_rate_limits.reset`. -/
def initUsersLookupLimited (now : Int) (p : Progress) : Bool :=
  decide (now > p.users_lookup_rate_limits.reset)

/-- The initial rate-limited flag for the search endpoint
(twitter_api.py, line 129): `now > progress.search_rate_limits.reset`. -/
def initSearchLimited (now : Int) (p : Progress) : Bool :=
  decide (now > p.search_rate_limits.reset)

/-- The spec's window-exhaustion predicate, stated from the spec's words for
comparison with the source's checks: exhausted iff `remaining <= 0` and
`now < resetAt`. -/
def specExhausted (w : EndpointRateLimit) (now : Int) : Bool :=
  decide (w.remaining ≤ 0 ∧ now < w.reset)

/-- The action selected by one iteration of the `save_followers` loop
(twitter_api.py, lines 68-122), with the branch guards in source order:
exit-marker check, users-lookup branch, sleep branch, pagination branch,
terminal `break`. -/
inductive FAction where
  | stop
  | lookupUsers
  | sleep
  | paginate
  | exitLoop
deriving Repr, DecidableEq

/-- Branch selection of the `save_followers` loop body, exactly the chain of
`if`/`elif` guards at twitter_api.py lines 69, 72-73, 91, 102, 115. -/
def followerAction (p : Progress) (usersLookupLimited getFollowerIdsLimited : Bool)
    (exitMarker : Bool) : FAction :=
  if exitMarker then .stop
  else if (100 ≤ p.follower_ids.length ∨ (p.cursor = 0 ∧ 0 < p.follower_ids.length))
      ∧ usersLookupLimited = false then .lookupUsers
  else if getFollowerIdsLimited = true then .sleep
  else if p.cursor ≠ 0 then .paginate
  else .exitLoop

theorem followerAction_fresh_defaults :
    followerAction (loadProgress []) (initUsersLookupLimited 50 (loadProgress []))
      (initGetFollowerIdsLimited 50 (loadProgress [])) false = .sleep := by decide

/-- Outcome of the one network call of the users-lookup branch plus the
storage write that follows it. -/
inductive LookupOutcome where
  | ok
  | quotaErr (probed : EndpointRateLimit)
  | storageErr
deriving Repr, DecidableEq

/-- The list passed to `api.UsersLookup` (twitter_api.py, line 77):
`progress.follower_ids[:100]`. -/
def usersLookupBatch (p : Progress) : List String :=
  p.follower_ids.take 100

/-- The users-lookup branch body (twitter_api.py, lines 74-90). On success the
first 100 queue entries are dropped (line 79); on `twitter.error.TwitterError`
the queue is untouched, the flag is set and the window is replaced by the
quota probe's result (lines 80-83); on any other exception the queue is
untouched and the exception is re-raised (lines 84-88), modelled as
`Except.error` carrying the progress at raise time. -/
def usersLookupStep (p : Progress) (usersLookupLimited : Bool) :
    LookupOutcome → Except Progress (Progress × Bool)
  | .ok => .ok ({ p with follower_ids := p.follower_ids.drop 100 }, usersLookupLimited)
  | .quotaErr w => .ok ({ p with users_lookup_rate_limits := w }, true)
  | .storageErr => .error p

/-- Outcome of the one network call of the pagination branch. -/
inductive PageOutcome where
  | ok (nextCursor prevCursor : Int) (ids : List String)
  | quotaErr (probed : EndpointRateLimit)
deriving Repr, DecidableEq

/-- The pagination branch body (twitter_api.py, lines 103-114). On success the
cursor becomes the returned next cursor and the page is appended to the queue
(lines 105-107); on `twitter.error.TwitterError` the cursor and queue are
untouched, the flag is set and the window is replaced by the quota probe's
result (lines 108-112). -/
def getFollowerIdsStep (p : Progress) (getFollowerIdsLimited : Bool) :
    PageOutcome → Progress × Bool
  | .ok next _ ids =>
      ({ p with cursor := next, follower_ids := p.follower_ids ++ ids }, getFollowerIdsLimited)
  | .quotaErr w => ({ p with get_follower_ids_rate_limits := w }, true)

/-- The reset time the follower-mode sleep branch sleeps toward
(twitter_api.py, lines 92-96): the users-lookup reset when at least 100 ids
are pending and the follower-ids reset is the later of the two, otherwise the
follower-ids reset. -/
def closestResetFollower (p : Progress) : Int :=
  if 100 ≤ p.follower_ids.length ∧
      p.users_lookup_rate_limits.reset < p.get_follower_ids_rate_limits.reset then
    p.users_lookup_rate_limits.reset
  else
    p.get_follower_ids_rate_limits.reset

/-- The follower-mode sleep duration (twitter_api.py, line 97):
`max(int(closest_rate_limit_reset - time.time()) + 2, 0)`. -/
def sleepDurationFollower (p : Progress) (now : Int) : Int :=
  max (closestResetFollower p - now + 2) 0

/-- The search-mode sleep duration (twitter_api.py, lines 165-166):
`max(int(progress.search_rate_limits.reset - time.time()) + 2, 0)`. -/
def sleepDurationSearch (p : Progress) (now : Int) : Int :=
  max (p.search_rate_limits.reset - now + 2) 0

/-- Lookup in the hashtag watermark dict (`progress.hashtag_max_ids.get(h)`,
twitter_api.py line 146). -/
def dlookup : List (String × Int) → String → Option Int
  | [], _ => none
  | (k', v) :: rest, k => if k' = k then some v else dlookup rest k

/-- Assignment `progress.hashtag_max_ids[h] = v` (twitter_api.py line 157):
Python dict update keeps an existing key at its position, else appends. -/
def dinsert : List (String × Int) → String → Int → List (String × Int)
  | [], k, v => [(k, v)]
  | (k', v') :: rest, k, v =>
      if k' = k then (k', v) :: rest else (k', v') :: dinsert rest k v

/-- Mutable state of the `search` loop (twitter_api.py, lines 125-169): the
progress object, the caller-supplied hashtag list (mutated in place by the
source; modelled by explicit state passing), the round-robin index and the
search rate-limited flag. -/
structure SearchState where
  progress : Progress
  hashtags : List String
  index : Nat
  searchLimited : Bool
deriving Repr, DecidableEq

/-- Index normalisation before picking a hashtag (twitter_api.py, lines
139-140): `if index >= len(hashtags) or index < 0: index %= len(hashtags)`
(the index is never negative: it starts at 0 and the decrement at line 154
only follows the increment at line 142). -/
def pickIndex (hashtags : List String) (index : Nat) : Nat :=
  if hashtags.length ≤ index then index % hashtags.length else index

/-- The hashtag searched this iteration (twitter_api.py, line 141). -/
def currentHashtag (hashtags : List String) (index : Nat) : String :=
  hashtags.getD (pickIndex hashtags index) ""

/-- Outcome of the one network call of the search branch. -/
inductive SearchOutcome where
  | ok (tweetIds : List Int)
  | quotaErr (probed : EndpointRateLimit)
deriving Repr, DecidableEq

/-- The search branch body (twitter_api.py, lines 139-163), for a non-empty
hashtag list. `tweetIds` are the ids of the returned tweets in returned
order, so `tweets[-1].id` is their last element. On success: if fewer than
100 tweets returned, the hashtag is removed from the caller's list (first
occurrence, line 153) and the index decrement undoes the increment; if any
tweets returned, the watermark is set to the last tweet's id minus one
(line 157). On `twitter.error.TwitterError`: only the flag and the search
window (via quota probe) change (lines 158-161). -/
def searchStep (s : SearchState) : SearchOutcome → SearchState
  | .ok tweetIds =>
      let i := pickIndex s.hashtags s.index
      let h := currentHashtag s.hashtags s.index
      let hashtags' := if tweetIds.length < 100 then s.hashtags.erase h else s.hashtags
      let index' := if tweetIds.length < 100 then i else i + 1
      let maxIds' :=
        if 0 < tweetIds.length then
          dinsert s.progress.hashtag_max_ids h (tweetIds.getLastD 0 - 1)
        else s.progress.hashtag_max_ids
      { progress := { s.progress with hashtag_max_ids := maxIds' },
        hashtags := hashtags', index := index', searchLimited := s.searchLimited }
  | .quotaErr w =>
      { progress := { s.progress with search_rate_limits := w },
        hashtags := s.hashtags, index := pickIndex s.hashtags s.index + 1,
        searchLimited := true }

/-- The action selected by one iteration of the `search` loop
(twitter_api.py, lines 131-169). -/
inductive SAction where
  | stop
  | searchCall
  | sleep
deriving Repr, DecidableEq

/-- Branch selection of the `search` loop body, the chain of guards at
twitter_api.py lines 132, 135, 138, 164. -/
def searchAction (hashtags : List String) (searchLimited : Bool) (exitMarker : Bool) : SAction :=
  if hashtags.length = 0 then .stop
  else if exitMarker then .stop
  else if searchLimited = false then .searchCall
  else .sleep

/-! ### Helper lemmas -/

theorem dlookup_dinsert (m : List (String × Int)) (k : String) (v : Int) :
    dlookup (dinsert m k v) k = some v := by
  induction m with
  | nil => simp [dinsert, dlookup]
  | cons head rest ih =>
      obtain ⟨k', v'⟩ := head
      by_cases h : k' = k
      · simp [dinsert, dlookup, h]
      · simp [dinsert, dlookup, h, ih]

theorem getLastD_mem (l : List Int) : ∀ d : Int, l ≠ [] → l.getLastD d ∈ l := by
  induction l with
  | nil => intro d h; exact absurd rfl h
  | cons a t ih =>
      intro d _
      cases t with
      | nil => simp
      | cons b t' => exact List.mem_cons_of_mem a (ih a (by simp))

/-- Every checkpoint field except the watermark map survives the
save-then-load round trip; the watermark map is reset to the default `[]`
because `save` writes key `hashtag_max_ids` while `__init__` reads key
`max_ids`. -/
theorem loadProgress_saveProgress (p : Progress) :
    loadProgress (saveProgress p) = { p with hashtag_max_ids := [] } := rfl

/-! ### Claim theorems -/

/-- Concrete checkpoint state with a non-empty watermark map. -/
def progressC1 : Progress :=
  { cursor := 0, follower_ids := ["17"], hashtag_max_ids := [("#news", 7)],
    get_follower_ids_rate_limits := ⟨15, 15, 0⟩,
    users_lookup_rate_limits := ⟨900, 150, 0⟩,
    search_rate_limits := ⟨180, 180, 0⟩ }

/-- C1: the save-then-load round trip does NOT restore every checkpoint
field: the per-search-term watermark map is written under key
`hashtag_max_ids` but read back from key `max_ids`, so a restart silently
resets it to `{}` while cursor, queue and the rate-limit windows survive. -/
theorem C1_roundtrip_loses_watermarks :
    (loadProgress (saveProgress progressC1)).hashtag_max_ids = [] ∧
    progressC1.hashtag_max_ids = [("#news", 7)] ∧
    loadProgress (saveProgress progressC1) ≠ progressC1 ∧
    (loadProgress (saveProgress progressC1)).cursor = progressC1.cursor ∧
    (loadProgress (saveProgress progressC1)).follower_ids = progressC1.follower_ids ∧
    (loadProgress (saveProgress progressC1)).users_lookup_rate_limits =
      progressC1.users_lookup_rate_limits := by
  refine ⟨rfl, rfl, ?_, rfl, rfl, rfl⟩
  intro h
  exact absurd (congrArg Progress.hashtag_max_ids h) (by decide)

/-- Checkpoint state whose users-lookup window is exhausted in the spec's
sense (`remaining = 0`, reset still 50 seconds away at `now = 50`), with a
full batch of 100 pending ids. -/
def progressC2 : Progress :=
  loadProgress (saveProgress
    { cursor := 5, follower_ids := List.replicate 100 "1", hashtag_max_ids := [],
      get_follower_ids_rate_limits := ⟨15, 15, 0⟩,
      users_lookup_rate_limits := ⟨900, 0, 100⟩,
      search_rate_limits := ⟨180, 180, 0⟩ })

/-- C2 counterexample: on the first iteration after restoring a checkpoint
whose users-lookup window satisfies `remaining <= 0 and now < resetAt`, the
loop nevertheless selects the users-lookup network call, because the
restored flag is computed as `now > reset` (false here), not from the
exhaustion predicate. -/
theorem C2_call_issued_on_exhausted_restored_window :
    specExhausted progressC2.users_lookup_rate_limits 50 = true ∧
    followerAction progressC2 (initUsersLookupLimited 50 progressC2)
      (initGetFollowerIdsLimited 50 progressC2) false = .lookupUsers := by
  exact ⟨rfl, rfl⟩

/-- C2 amended: the scheduler never issues a call against an endpoint whose
in-memory rate-limited flag is set (the flag is set by a caught quota error
and cleared only by the sleep branch); but the flag restored at startup is
`now > reset`, so quota compliance does not extend to the first iteration
after restoring an exhausted window from a checkpoint. -/
theorem C2_no_call_when_flag_set (p : Progress) (uLim gLim sLim em : Bool)
    (hs : List String) :
    (uLim = true → followerAction p uLim gLim em ≠ .lookupUsers) ∧
    (gLim = true → followerAction p uLim gLim em ≠ .paginate) ∧
    (sLim = true → searchAction hs sLim em ≠ .searchCall) := by
  refine ⟨fun h => ?_, fun h => ?_, fun h => ?_⟩ <;> subst h <;>
    simp only [followerAction, searchAction] <;> split_ifs <;> simp_all

theorem C2_no_call_when_flag_set_witness :
    followerAction progressC2 true false false ≠ .lookupUsers ∧
    followerAction progressC2 false true false ≠ .paginate ∧
    searchAction ["#news"] true false ≠ .searchCall :=
  ⟨(C2_no_call_when_flag_set progressC2 true false false false []).1 rfl,
   (C2_no_call_when_flag_set progressC2 false true false false []).2.1 rfl,
   (C2_no_call_when_flag_set progressC2 false false true false ["#news"]).2.2 rfl⟩

/-- Checkpoint state for C3: users-lookup window has plenty of quota
remaining but its reset time in the past; search window is exhausted in the
spec's sense at `now = 50`. -/
def progressC3 : Progress :=
  { cursor := -1, follower_ids := [], hashtag_max_ids := [],
    get_follower_ids_rate_limits := ⟨15, 15, 0⟩,
    users_lookup_rate_limits := ⟨900, 150, 0⟩,
    search_rate_limits := ⟨180, 0, 100⟩ }

/-- C3 counterexample: the source's check marks a window rate-limited with
`remaining = 150 > 0` (the claim requires false whenever remaining > 0), and
returns false on a window with `remaining = 0` and `now < resetAt` (the claim
requires `now < resetAt`, i.e. true). -/
theorem C3_check_is_now_gt_reset :
    (0 : Int) < progressC3.users_lookup_rate_limits.remaining ∧
    initUsersLookupLimited 5 progressC3 = true ∧
    progressC3.search_rate_limits.remaining ≤ 0 ∧ (50 : Int) < progressC3.search_rate_limits.reset ∧
    initSearchLimited 50 progressC3 = false := by decide

/-- C3 amended: the source's initial rate-limited check for every endpoint is
`now > resetAt`, ignoring `remaining` entirely — true exactly when the reset
time already lies in the past, regardless of remaining quota. -/
theorem C3_initial_check_formula (now : Int) (p : Progress) :
    (initUsersLookupLimited now p = true ↔ p.users_lookup_rate_limits.reset < now) ∧
    (initGetFollowerIdsLimited now p = true ↔ p.get_follower_ids_rate_limits.reset < now) ∧
    (initSearchLimited now p = true ↔ p.search_rate_limits.reset < now) := by
  simp [initUsersLookupLimited, initGetFollowerIdsLimited, initSearchLimited]

/-- Checkpoint state for C4: pagination exhausted (cursor 0) but 150 follower
ids still pending lookup. -/
def progressC4 : Progress :=
  { cursor := 0, follower_ids := List.replicate 150 "9", hashtag_max_ids := [],
    get_follower_ids_rate_limits := ⟨15, 15, 0⟩,
    users_lookup_rate_limits := ⟨900, 0, 100⟩,
    search_rate_limits := ⟨180, 180, 0⟩ }

set_option maxRecDepth 4000 in
/-- C4 counterexample: with cursor 0, a non-empty pending queue and the
users-lookup flag set (as after a caught lookup quota error), the loop takes
the success terminal branch — terminating while fetchable pending
identifiers remain and a rate limit is pending. -/
theorem C4_exit_with_pending_ids :
    followerAction progressC4 true false false = .exitLoop ∧
    progressC4.follower_ids.length = 150 := by
  exact ⟨rfl, by simp [progressC4]⟩

/-- C4 amended: without the exit marker, the terminal branch is taken exactly
when cursor = 0, the follower-ids flag is clear, and the pending queue is
empty OR the users-lookup flag is set; so the loop can terminate
"successfully" with pending identifiers whenever the lookup endpoint is
flagged rate-limited. -/
theorem C4_terminal_characterization (p : Progress) (uLim gLim : Bool) :
    followerAction p uLim gLim false = .exitLoop ↔
      p.cursor = 0 ∧ gLim = false ∧ (p.follower_ids.length = 0 ∨ uLim = true) := by
  unfold followerAction
  constructor
  · intro h
    rw [if_neg (by simp)] at h
    by_cases h2 : (100 ≤ p.follower_ids.length ∨ (p.cursor = 0 ∧ 0 < p.follower_ids.length))
        ∧ uLim = false
    · rw [if_pos h2] at h
      exact FAction.noConfusion h
    · rw [if_neg h2] at h
      by_cases h3 : gLim = true
      · rw [if_pos h3] at h
        exact FAction.noConfusion h
      · rw [if_neg h3] at h
        by_cases h4 : p.cursor ≠ 0
        · rw [if_pos h4] at h
          exact FAction.noConfusion h
        · have hc : p.cursor = 0 := not_not.mp h4
          refine ⟨hc, by simpa using h3, ?_⟩
          cases uLim with
          | true => exact Or.inr rfl
          | false =>
              left
              have hAB : ¬(100 ≤ p.follower_ids.length ∨
                  (p.cursor = 0 ∧ 0 < p.follower_ids.length)) := fun hab => h2 ⟨hab, rfl⟩
              push_neg at hAB
              omega
  · rintro ⟨hc, hg, hl⟩
    subst hg
    have hb : ¬((100 ≤ p.follower_ids.length ∨ (p.cursor = 0 ∧ 0 < p.follower_ids.length))
        ∧ uLim = false) := by
      rintro ⟨hab, hu⟩
      rcases hl with hl0 | hl1
      · rcases hab with ha | hb2 <;> omega
      · rw [hl1] at hu
        exact absurd hu (by simp)
    rw [if_neg (by simp), if_neg hb, if_neg (by simp), if_neg (fun h => h hc)]

/-- Checkpoint state for C5: every reset time is 0, far in the past at
`now = 100`. -/
def progressC5 : Progress :=
  { cursor := 5, follower_ids := [], hashtag_max_ids := [],
    get_follower_ids_rate_limits := ⟨15, 0, 0⟩,
    users_lookup_rate_limits := ⟨900, 150, 0⟩,
    search_rate_limits := ⟨180, 0, 0⟩ }

/-- C5 counterexample: when the relevant reset lies in the past, the computed
sleep duration is 0, while the claim's formula
`max(earliest_relevant_reset - now, 0) + small_safety_margin` demands at
least the safety margin (2). -/
theorem C5_sleep_below_margin :
    sleepDurationFollower progressC5 100 = 0 ∧
    sleepDurationSearch progressC5 100 = 0 ∧
    max (closestResetFollower progressC5 - 100) 0 + 2 = 2 := by decide

/-- C5 amended: the sleep duration is `max(reset - now + 2, 0)` — the safety
margin is added before clamping at zero. It is never negative and agrees
with the claim's formula whenever the relevant reset is not in the past, but
it is 0 (below the margin) once the reset lies more than 2 seconds in the
past. -/
theorem C5_sleep_duration_formula (p : Progress) (now : Int) :
    0 ≤ sleepDurationFollower p now ∧
    0 ≤ sleepDurationSearch p now ∧
    (now ≤ closestResetFollower p →
      sleepDurationFollower p now = max (closestResetFollower p - now) 0 + 2) ∧
    (now ≤ p.search_rate_limits.reset →
      sleepDurationSearch p now = max (p.search_rate_limits.reset - now) 0 + 2) ∧
    (closestResetFollower p + 2 ≤ now → sleepDurationFollower p now = 0) := by
  unfold sleepDurationFollower sleepDurationSearch
  omega

/-- Checkpoint state whose resets all lie in the future relative to `now = 50`. -/
def progressC5w : Progress :=
  { cursor := 5, follower_ids := [], hashtag_max_ids := [],
    get_follower_ids_rate_limits := ⟨15, 0, 100⟩,
    users_lookup_rate_limits := ⟨900, 150, 160⟩,
    search_rate_limits := ⟨180, 0, 200⟩ }

theorem C5_sleep_duration_formula_witness :
    sleepDurationFollower progressC5w 50 = max (closestResetFollower progressC5w - 50) 0 + 2 ∧
    sleepDurationSearch progressC5w 50 = max (progressC5w.search_rate_limits.reset - 50) 0 + 2 ∧
    sleepDurationFollower progressC5 100 = 0 :=
  ⟨(C5_sleep_duration_formula progressC5w 50).2.2.1 (by decide),
   (C5_sleep_duration_formula progressC5w 50).2.2.2.1 (by decide),
   (C5_sleep_duration_formula progressC5 100).2.2.2.2 (by decide)⟩

/-- Checkpoint state for C6: empty watermark map. -/
def progressC6 : Progress :=
  { cursor := -1, follower_ids := [], hashtag_max_ids := [],
    get_follower_ids_rate_limits := ⟨15, 15, 0⟩,
    users_lookup_rate_limits := ⟨900, 150, 0⟩,
    search_rate_limits := ⟨180, 180, 0⟩ }

/-- Search-loop state for C6: one active hashtag "a", no watermark yet. -/
def searchStateC6 : SearchState :=
  { progress := progressC6, hashtags := ["a"], index := 0, searchLimited := false }

/-- C6 counterexample: a fetch returning 1 tweet (< 100) exhausts the term
and removes it from the active list, but the term's key is NOT removed from
the watermark map — it is inserted/advanced to `last id - 1` by the very
same iteration. -/
theorem C6_exhaustion_keeps_key_and_advances :
    (searchStep searchStateC6 (.ok [7])).hashtags = [] ∧
    dlookup (searchStep searchStateC6 (.ok [7])).progress.hashtag_max_ids "a" = some 6 := by
  exact ⟨rfl, rfl⟩

/-- C6 amended: a term is removed from the active list exactly when the fetch
returns fewer than 100 items; its key is never removed from the watermark
map, and the watermark IS advanced (to the page's last id minus one) on
every non-empty page, including the exhausting one; only an empty page
leaves the map unchanged. -/
theorem C6_search_exhaustion (s : SearchState) (ids : List Int) :
    ((searchStep s (.ok ids)).hashtags =
      if ids.length < 100 then s.hashtags.erase (currentHashtag s.hashtags s.index)
      else s.hashtags) ∧
    (0 < ids.length →
      dlookup (searchStep s (.ok ids)).progress.hashtag_max_ids
        (currentHashtag s.hashtags s.index) = some (ids.getLastD 0 - 1)) ∧
    (ids.length = 0 →
      (searchStep s (.ok ids)).progress.hashtag_max_ids = s.progress.hashtag_max_ids) := by
  refine ⟨rfl, fun h => ?_, fun h => ?_⟩
  · show dlookup (if 0 < ids.length then
        dinsert s.progress.hashtag_max_ids (currentHashtag s.hashtags s.index)
          (ids.getLastD 0 - 1)
      else s.progress.hashtag_max_ids) (currentHashtag s.hashtags s.index) = _
    rw [if_pos h]
    exact dlookup_dinsert _ _ _
  · show (if 0 < ids.length then
        dinsert s.progress.hashtag_max_ids (currentHashtag s.hashtags s.index)
          (ids.getLastD 0 - 1)
      else s.progress.hashtag_max_ids) = _
    rw [if_neg (by omega)]

theorem C6_search_exhaustion_witness :
    dlookup (searchStep searchStateC6 (.ok [7])).progress.hashtag_max_ids
      (currentHashtag searchStateC6.hashtags searchStateC6.index) = some 6 ∧
    (searchStep searchStateC6 (.ok [])).progress.hashtag_max_ids =
      searchStateC6.progress.hashtag_max_ids :=
  ⟨(C6_search_exhaustion searchStateC6 [7]).2.1 (by decide),
   (C6_search_exhaustion searchStateC6 []).2.2 (by decide)⟩

/-- Checkpoint state for C7: pagination exhausted, 50 ids pending — a final
small batch. -/
def progressC7 : Progress :=
  { cursor := 0, follower_ids := List.replicate 50 "3", hashtag_max_ids := [],
    get_follower_ids_rate_limits := ⟨15, 15, 0⟩,
    users_lookup_rate_limits := ⟨900, 150, 0⟩,
    search_rate_limits := ⟨180, 180, 0⟩ }

/-- C7: the lookup call receives exactly the first at-most-100 queue entries
in order (`batch ++ rest = queue`, `|batch| ≤ 100`); on success exactly those
entries are removed; on a quota or storage failure the queue is unchanged;
and once cursor = 0 a non-empty queue of fewer than 100 still makes the
lookup branch fire. -/
theorem C7_entity_batch_bounds (p : Progress) (uLim gLim : Bool) :
    usersLookupBatch p ++ p.follower_ids.drop 100 = p.follower_ids ∧
    (usersLookupBatch p).length ≤ 100 ∧
    usersLookupStep p uLim .ok =
      .ok ({ p with follower_ids := p.follower_ids.drop 100 }, uLim) ∧
    (∀ w, usersLookupStep p uLim (.quotaErr w) =
      .ok ({ p with users_lookup_rate_limits := w }, true)) ∧
    usersLookupStep p uLim .storageErr = .error p ∧
    (p.cursor = 0 → 0 < p.follower_ids.length → uLim = false →
      followerAction p uLim gLim false = .lookupUsers) := by
  refine ⟨List.take_append_drop 100 p.follower_ids, ?_, rfl, fun w => rfl, rfl, ?_⟩
  · simp [usersLookupBatch]
  · intro hc hl hu
    subst hu
    simp [followerAction, hc, hl]

theorem C7_entity_batch_bounds_witness :
    followerAction progressC7 false false false = .lookupUsers ∧
    (usersLookupBatch progressC7).length ≤ 100 :=
  ⟨(C7_entity_batch_bounds progressC7 false false).2.2.2.2.2 rfl (by decide) rfl,
   (C7_entity_batch_bounds progressC7 false false).2.1⟩

/-- Checkpoint state for C8: hashtag "a" already carries watermark 10. -/
def progressC8 : Progress :=
  { cursor := -1, follower_ids := [], hashtag_max_ids := [("a", 10)],
    get_follower_ids_rate_limits := ⟨15, 15, 0⟩,
    users_lookup_rate_limits := ⟨900, 150, 0⟩,
    search_rate_limits := ⟨180, 180, 0⟩ }

/-- Search-loop state for C8. -/
def searchStateC8 : SearchState :=
  { progress := progressC8, hashtags := ["a"], index := 0, searchLimited := false }

/-- C8: if the current term already has watermark `w`, the page is non-empty,
every returned id is at most `w` (the API honours `max_id`) and the page is
ordered newest-first (its last element is minimal), then the accepted page
sets the watermark to the page's minimum id minus one, which is strictly
below `w` — so across successive calls the watermark never regresses toward
newer items. -/
theorem C8_watermark_monotone (s : SearchState) (ids : List Int) (w : Int)
    (_hw : dlookup s.progress.hashtag_max_ids (currentHashtag s.hashtags s.index) = some w)
    (hne : ids ≠ [])
    (hmax : ∀ t ∈ ids, t ≤ w)
    (hdesc : ∀ t ∈ ids, ids.getLastD 0 ≤ t) :
    dlookup (searchStep s (.ok ids)).progress.hashtag_max_ids
        (currentHashtag s.hashtags s.index) = some (ids.getLastD 0 - 1) ∧
    ids.getLastD 0 ∈ ids ∧
    (∀ t ∈ ids, ids.getLastD 0 - 1 < t) ∧
    ids.getLastD 0 - 1 < w := by
  have hmem : ids.getLastD 0 ∈ ids := getLastD_mem ids 0 hne
  have hlen : 0 < ids.length := List.length_pos.mpr hne
  refine ⟨?_, hmem, fun t ht => by have := hdesc t ht; omega, by have := hmax _ hmem; omega⟩
  show dlookup (if 0 < ids.length then
      dinsert s.progress.hashtag_max_ids (currentHashtag s.hashtags s.index)
        (ids.getLastD 0 - 1)
    else s.progress.hashtag_max_ids) (currentHashtag s.hashtags s.index) = _
  rw [if_pos hlen]
  exact dlookup_dinsert _ _ _

theorem C8_watermark_monotone_witness :
    dlookup (searchStep searchStateC8 (.ok [9, 8])).progress.hashtag_max_ids
      (currentHashtag searchStateC8.hashtags searchStateC8.index) = some 7 ∧
    ([9, 8] : List Int).getLastD 0 - 1 < 10 :=
  ⟨(C8_watermark_monotone searchStateC8 [9, 8] 10 (by decide) (by decide)
      (by decide) (by decide)).1,
   (C8_watermark_monotone searchStateC8 [9, 8] 10 (by decide) (by decide)
      (by decide) (by decide)).2.2.2⟩

/-- C9: when any of the three endpoint calls fails with a quota error, the
checkpointed cursor, pending queue and watermark map are all unchanged, the
failing endpoint's window is replaced by the quota probe's result, the other
two windows are untouched, and the error is absorbed (the lookup step — the
only one whose model can propagate an error — returns `.ok`; the hashtag
list of the search loop is also untouched). -/
theorem C9_quota_error_atomicity (p : Progress) (uLim gLim : Bool) (s : SearchState)
    (w : EndpointRateLimit) :
    (∃ p', usersLookupStep p uLim (.quotaErr w) = .ok (p', true) ∧
      p'.cursor = p.cursor ∧ p'.follower_ids = p.follower_ids ∧
      p'.hashtag_max_ids = p.hashtag_max_ids ∧
      p'.users_lookup_rate_limits = w ∧
      p'.get_follower_ids_rate_limits = p.get_follower_ids_rate_limits ∧
      p'.search_rate_limits = p.search_rate_limits) ∧
    (∃ p', getFollowerIdsStep p gLim (.quotaErr w) = (p', true) ∧
      p'.cursor = p.cursor ∧ p'.follower_ids = p.follower_ids ∧
      p'.hashtag_max_ids = p.hashtag_max_ids ∧
      p'.get_follower_ids_rate_limits = w ∧
      p'.users_lookup_rate_limits = p.users_lookup_rate_limits ∧
      p'.search_rate_limits = p.search_rate_limits) ∧
    ((searchStep s (.quotaErr w)).progress.cursor = s.progress.cursor ∧
      (searchStep s (.quotaErr w)).progress.follower_ids = s.progress.follower_ids ∧
      (searchStep s (.quotaErr w)).progress.hashtag_max_ids = s.progress.hashtag_max_ids ∧
      (searchStep s (.quotaErr w)).progress.search_rate_limits = w ∧
      (searchStep s (.quotaErr w)).progress.users_lookup_rate_limits =
        s.progress.users_lookup_rate_limits ∧
      (searchStep s (.quotaErr w)).progress.get_follower_ids_rate_limits =
        s.progress.get_follower_ids_rate_limits ∧
      (searchStep s (.quotaErr w)).hashtags = s.hashtags ∧
      (searchStep s (.quotaErr w)).searchLimited = true) := by
  exact ⟨⟨_, rfl, rfl, rfl, rfl, rfl, rfl, rfl⟩,
         ⟨_, rfl, rfl, rfl, rfl, rfl, rfl, rfl⟩,
         rfl, rfl, rfl, rfl, rfl, rfl, rfl, rfl⟩

/-- C10: the search step removes an exhausted term from the very term list it
was handed (modelled by explicit state passing: the returned list is the
caller's list after the in-place `hashtags.remove`), leaves the list intact
on a full page or a quota error, and the persisted checkpoint document
contains no field for the active-term list — its keys are exactly the six
checkpoint fields. -/
theorem C10_search_mutates_caller_list (s : SearchState) (ids : List Int)
    (w : EndpointRateLimit) :
    (ids.length < 100 →
      (searchStep s (.ok ids)).hashtags =
        s.hashtags.erase (currentHashtag s.hashtags s.index)) ∧
    (100 ≤ ids.length → (searchStep s (.ok ids)).hashtags = s.hashtags) ∧
    (searchStep s (.quotaErr w)).hashtags = s.hashtags ∧
    (saveProgress (searchStep s (.ok ids)).progress).map Prod.fst =
      ["cursor", "follower_ids", "hashtag_max_ids", "get_follower_ids_rate_limits",
       "users_lookup_rate_limits", "search_rate_limits"] := by
  refine ⟨fun h => ?_, fun h => ?_, rfl, rfl⟩
  · show (if ids.length < 100 then
        s.hashtags.erase (currentHashtag s.hashtags s.index) else s.hashtags) = _
    rw [if_pos h]
  · show (if ids.length < 100 then
        s.hashtags.erase (currentHashtag s.hashtags s.index) else s.hashtags) = _
    rw [if_neg (by omega)]

theorem C10_search_mutates_caller_list_witness :
    (searchStep searchStateC8 (.ok [9, 8])).hashtags = [] ∧
    (searchStep searchStateC8 (.ok (List.replicate 100 (5 : Int)))).hashtags =
      searchStateC8.hashtags :=
  ⟨by
    have h := (C10_search_mutates_caller_list searchStateC8 [9, 8] ⟨180, 0, 99⟩).1
      (by decide)
    simpa using h,
   (C10_search_mutates_caller_list searchStateC8 (List.replicate 100 (5 : Int))
      ⟨180, 0, 99⟩).2.1 (by simp)⟩

theorem C4_terminal_characterization_witness :
    followerAction progressC4 true false false = .exitLoop :=
  (C4_terminal_characterization progressC4 true false).mpr ⟨rfl, rfl, Or.inr rfl⟩
